import Mathlib

/-!
# Verification of the auto-qa-guide autonomous form-automation core

Shallow embedding, in Lean 4, of the decision/interaction core of the
`auto-qa-guide` repository (TypeScript, Playwright-based):

* `ActionDecider` (`src/lib/analyzer/action-decider.ts`): action decision,
  stuck detection, next-field selection;
* `PageStateAnalyzer` (`src/lib/analyzer/page-state-analyzer.ts`): form grouping;
* `SmartFieldAnalyzer` (`src/lib/analyzer/smart-field-analyzer.ts`): confidence;
* `InteractionHandler` / `AutoPilot` fill paths
  (`src/lib/analyzer/interaction-handler.ts`, `src/lib/analyzer/auto-pilot.ts`);
* `DropdownHandler.trySelectOption` (`src/lib/analyzer/dropdown-handler.ts`);
* `ErrorRecovery.attemptRecovery` (`src/lib/analyzer/error-recovery.ts`);
* `WaitStrategy.waitForStableState`;
* the `AutoPilot.execute` orchestration loop.

Modelling conventions:

* Browser/page effects (Playwright queries, clicks, typing, waits) are
  abstracted as explicit oracle parameters: an effectful call that can
  succeed or fail becomes a `Bool`/`Option` input, and a value read from the
  page becomes a `String` input.  The control flow around those calls is
  translated statement by statement from the source.
* JavaScript string truthiness (`if (s)`) is modelled by `optTruthy` /
  emptiness tests; `String.prototype.includes` by substring containment.
* Wall-clock times (`Date.now()` durations) are irrelevant to every claim
  and are fixed to `0`; timestamp- or random-based generated values are
  abstracted as an explicit generator argument.
-/

namespace AutoQA

/-- JS `String.prototype.includes`: substring containment. -/
def strIncludes (s sub : String) : Bool :=
  decide (sub.data <:+: s.data)

/-- First `some` produced by `f` over `l` (a sequential `for` loop that
returns on the first hit). -/
def firstSome {α β : Type _} (l : List α) (f : α → Option β) : Option β :=
  match l with
  | [] => none
  | x :: xs =>
    match f x with
    | some b => some b
    | none => firstSome xs f

lemma firstSome_eq_none {α β : Type _} {l : List α} {f : α → Option β}
    (h : ∀ x ∈ l, f x = none) : firstSome l f = none := by
  induction l with
  | nil => rfl
  | cons x xs ih =>
    rw [firstSome, h x (by simp)]
    exact ih fun y hy => h y (by simp [hy])

lemma firstSome_eq_some {α β : Type _} {l : List α} {f : α → Option β}
    {b : β} (h : firstSome l f = some b) : ∃ x ∈ l, f x = some b := by
  induction l with
  | nil => simp [firstSome] at h
  | cons x xs ih =>
    rw [firstSome] at h
    split at h
    · rename_i c hfx
      cases h
      exact ⟨x, by simp, hfx⟩
    · rename_i hfx
      obtain ⟨y, hy, hfy⟩ := ih h
      exact ⟨y, by simp [hy], hfy⟩

/-- JS `String.prototype.toLowerCase` (ASCII-relevant part), as a
character-wise map. -/
def strToLower (s : String) : String :=
  ⟨s.data.map Char.toLower⟩

/-- JS truthiness of an optional string: `undefined` and `""` are falsy. -/
def optTruthy : Option String → Bool
  | none => false
  | some s => s ≠ ""

/-- JS `opt?.includes(sub)` truthiness: `undefined` is falsy. -/
def optIncludes (o : Option String) (sub : String) : Bool :=
  match o with
  | none => false
  | some s => strIncludes s sub

/-! ## Data model (`page-state-analyzer.ts`)

`ButtonState`, `InputState`, `FormState`, `ModalState`, `PageState`
translated from the interfaces at the top of `page-state-analyzer.ts`. -/

structure ButtonState where
  text : String
  disabled : Bool
  visible : Bool
  selector : String
  ariaLabel : Option String := none
  type : Option String := none
deriving Repr, DecidableEq

structure InputState where
  name : String
  type : String
  value : String
  placeholder : String
  required : Bool
  disabled : Bool
  visible : Bool
  selector : String
  ariaLabel : Option String := none
  validationMessage : Option String := none
deriving Repr, DecidableEq

structure FormState where
  inputs : List InputState
  buttons : List ButtonState
  submitButton : Option ButtonState
  isValid : Bool
  emptyRequiredFields : List String
deriving Repr, DecidableEq

structure ModalState where
  visible : Bool
  title : Option String := none
  content : Option String := none
  buttons : List ButtonState
  inputs : List InputState
deriving Repr, DecidableEq

structure AlertState where
  type : String
  message : String
  visible : Bool
deriving Repr, DecidableEq

structure PageState where
  url : String
  title : String
  forms : List FormState
  buttons : List ButtonState
  inputs : List InputState
  alerts : List AlertState
  modals : List ModalState
  activeTab : Option String := none
  timestamp : String := ""
deriving Repr, DecidableEq

namespace PageStateAnalyzer

/-- `PageStateAnalyzer.groupIntoForms`: the whole page is reported as a single
form; `emptyRequiredFields` collects the names of required, empty, visible
inputs and `isValid` is the emptiness of that list. -/
def groupIntoForms (inputs : List InputState) (buttons : List ButtonState) :
    List FormState :=
  let emptyRequiredFields :=
    (inputs.filter fun i => i.required && (i.value == "") && i.visible).map
      (·.name)
  let submitButton := buttons.find? fun b =>
    (b.type == some "submit") ||
    strIncludes b.text "저장" ||
    strIncludes b.text "생성" ||
    strIncludes b.text "확인" ||
    strIncludes b.text "완료"
  [{ inputs := inputs.filter (·.visible),
     buttons := buttons.filter (·.visible),
     submitButton := submitButton,
     isValid := emptyRequiredFields.length == 0,
     emptyRequiredFields := emptyRequiredFields }]

/-- `PageStateAnalyzer.analyze`, with the browser-side extraction results
(buttons, inputs, alerts, modals, active tab, url, title, timestamp) passed
in as arguments; `forms` is derived by `groupIntoForms` exactly as in the
source. -/
def analyze (url title : String) (buttons : List ButtonState)
    (inputs : List InputState) (alerts : List AlertState)
    (modals : List ModalState) (activeTab : Option String)
    (timestamp : String) : PageState :=
  { url := url
    title := title
    forms := groupIntoForms inputs buttons
    buttons := buttons
    inputs := inputs
    alerts := alerts
    modals := modals
    activeTab := activeTab
    timestamp := timestamp }

end PageStateAnalyzer

/-! ## ActionDecider (`action-decider.ts`) -/

inductive ActionType
  | fill | click | select | wait | escape | tab | done | blocked | explore
deriving Repr, DecidableEq

structure Action where
  type : ActionType
  selector : Option String := none
  value : Option String := none
  reason : String
  confidence : ℚ
deriving Repr, DecidableEq

structure Goal where
  name : String
  targetButton : Option String := none
  requiredFields : Option (List String) := none
  successIndicator : Option String := none
deriving Repr, DecidableEq

/-- State snapshot hashes used for stuck detection
(`interface StateSnapshot` in `action-decider.ts`). -/
structure StateSnapshot where
  timestamp : Nat
  url : String
  emptyFieldCount : Nat
  filledFieldCount : Nat
  targetButtonEnabled : Bool
  hash : String
deriving Repr, DecidableEq

structure StuckDetectionResult where
  isStuck : Bool
  consecutiveSameStates : Nat
  reason : Option String := none
deriving Repr, DecidableEq

namespace ActionDecider

/-- `this.stateSnapshots.slice(-k)` digests: the most recent `k` hashes. -/
def recentHashes (snaps : List StateSnapshot) (k : Nat) : List String :=
  (snaps.drop (snaps.length - k)).map (·.hash)

/-- `hashes.every(h => h === hashes[0])`. -/
def allSameHash : List String → Bool
  | [] => true
  | h :: t => (h :: t).all fun x => x == h

/-- The `consecutiveCount` loop of `detectStuckState`: starting from the most
recent snapshot, count how many consecutive snapshots (scanning backwards)
share the last snapshot's hash. -/
def consecutiveSameFromEnd (snaps : List StateSnapshot) : Nat :=
  match snaps.reverse with
  | [] => 1
  | last :: rest => 1 + (rest.takeWhile fun s => s.hash == last.hash).length

/-- `ActionDecider.detectStuckState` (threshold `stuckThreshold`, 3 by
default in the source). -/
def detectStuckState (snaps : List StateSnapshot) (stuckThreshold : Nat) :
    StuckDetectionResult :=
  if snaps.length < stuckThreshold then
    { isStuck := false, consecutiveSameStates := 0 }
  else
    let hashes := recentHashes snaps stuckThreshold
    if allSameHash hashes then
      { isStuck := true
        consecutiveSameStates := stuckThreshold
        reason := some "동일한 상태가 반복됨. 진행이 없습니다." }
    else
      let consecutiveCount := consecutiveSameFromEnd snaps
      { isStuck := decide (stuckThreshold ≤ consecutiveCount)
        consecutiveSameStates := consecutiveCount
        reason := if stuckThreshold ≤ consecutiveCount then
            some "동일한 상태가 반복됨" else none }

/-- `ActionDecider.findTargetButton`: `undefined` when the goal names no
target (or names it with the falsy `""`), else the first visible button whose
text or aria-label contains the goal's target-button text. -/
def findTargetButton (state : PageState) (goal : Goal) : Option ButtonState :=
  if !optTruthy goal.targetButton then none
  else
    let tb := goal.targetButton.getD ""
    state.buttons.find? fun b =>
      b.visible && (strIncludes b.text tb || optIncludes b.ariaLabel tb)

/-- Step 1 of `ActionDecider.findNextInputToFill`: scan the goal's
`requiredFields` names in order and return the first visible, enabled, empty
input whose name or aria-label contains that name. -/
def findByGoalFields (form : FormState) (goal : Goal) : Option InputState :=
  match goal.requiredFields with
  | none => none
  | some names =>
    firstSome names fun fieldName =>
      form.inputs.find? fun i =>
        i.visible && !i.disabled && (i.value == "") &&
          (strIncludes i.name fieldName || optIncludes i.ariaLabel fieldName)

/-- `ActionDecider.findNextInputToFill`: explicit goal fields first, then the
first empty required field, then any empty visible field; disabled or
invisible fields are never candidates. -/
def findNextInputToFill (state : PageState) (goal : Goal) :
    Option InputState :=
  match state.forms.head? with
  | none => none
  | some form =>
    match findByGoalFields form goal with
    | some input => some input
    | none =>
      match form.inputs.find? fun i =>
          i.visible && !i.disabled && i.required && (i.value == "") with
      | some emptyRequired => some emptyRequired
      | none =>
        form.inputs.find? fun i => i.visible && !i.disabled && (i.value == "")

/-- `ActionDecider.handleModal`.  The generated input value depends on
`Date.now()`/`Math.random()` via the field strategies, so value generation is
abstracted by the `genValue` argument. -/
def handleModal (modal : ModalState) (genValue : InputState → String) :
    Action :=
  match modal.inputs.find? fun i => i.value == "" with
  | some emptyInput =>
    { type := .fill
      selector := some emptyInput.selector
      value := some (genValue emptyInput)
      reason := "모달 내 필드 입력"
      confidence := 7/10 }
  | none =>
    match modal.buttons.find? fun b =>
        !b.disabled && (strIncludes b.text "확인" || strIncludes b.text "삭제"
          || strIncludes b.text "저장") with
    | some confirmBtn =>
      { type := .click
        selector := some confirmBtn.selector
        reason := "모달 버튼 클릭"
        confidence := 8/10 }
    | none =>
      { type := .escape, reason := "모달 닫기 (ESC)", confidence := 5/10 }

/-- Index (from the front) of the last action of type `t` in the history;
`-1` when there is none, as in the source. -/
def lastIndexOfType (history : List Action) (t : ActionType) : Int :=
  match history.reverse.findIdx? (·.type == t) with
  | none => -1
  | some j => Int.ofNat (history.length - 1 - j)

/-- `ActionDecider.shouldTriggerBlur`: true when the most recent `fill` is
more recent than the most recent `tab`. -/
def shouldTriggerBlur (history : List Action) : Bool :=
  let lastFillIndex := lastIndexOfType history .fill
  let lastTabIndex := lastIndexOfType history .tab
  if lastFillIndex == -1 then false
  else decide (lastTabIndex < lastFillIndex)

/-- `ActionDecider.decideNextAction`.  The page snapshot obtained from
`analyzer.analyze()` is the `state` argument; the result of the (page-
querying) `checkSuccessIndicator` call is the `successMet` oracle; value
generation is the `genValue` argument; `history` is `this.actionHistory`. -/
def decideNextAction (state : PageState) (goal : Goal) (successMet : Bool)
    (genValue : InputState → String) (history : List Action) : Action :=
  -- 1. resolve a modal first
  match state.modals with
  | modal :: _ => handleModal modal genValue
  | [] =>
    -- 2. success indicator checked before the target button
    if optTruthy goal.successIndicator && successMet then
      { type := .done, reason := "목표 달성됨", confidence := 1 }
    else
      match findTargetButton state goal with
      | some targetButton =>
        -- 3. enabled target button → click it
        if !targetButton.disabled then
          { type := .click
            selector := some targetButton.selector
            reason := "목표 버튼 활성화됨"
            confidence := 95/100 }
        else
          -- 4. disabled target button → fill the next input
          match findNextInputToFill state goal with
          | some nextInput =>
            { type := .fill
              selector := some nextInput.selector
              value := some (genValue nextInput)
              reason := "필드 입력 필요 (버튼 활성화를 위해)"
              confidence := 8/10 }
          | none =>
            if shouldTriggerBlur history then
              { type := .tab
                reason := "blur 이벤트 발생을 위해 Tab 키 입력"
                confidence := 6/10 }
            else
              { type := .explore
                reason := "버튼이 여전히 비활성화. 추가 조건 탐색 필요"
                confidence := 3/10 }
      | none =>
        -- 5. goal names a target button but it was not found
        if optTruthy goal.targetButton then
          { type := .blocked
            reason := "목표 버튼을 찾을 수 없음"
            confidence := 9/10 }
        -- 6. late success-indicator check (same oracle value)
        else if optTruthy goal.successIndicator && successMet then
          { type := .done, reason := "목표 달성됨", confidence := 1 }
        else
          { type := .blocked
            reason := "다음 행동을 결정할 수 없음"
            confidence := 5/10 }

end ActionDecider

namespace ActionDecider

lemma takeWhile_two_of_le {α : Type _} {p : α → Bool} :
    ∀ {l : List α}, 2 ≤ (l.takeWhile p).length →
      ∃ x y t, l = x :: y :: t ∧ p x = true ∧ p y = true := by
  intro l hl
  match l with
  | [] => simp [List.takeWhile] at hl
  | x :: l₂ =>
    rw [List.takeWhile_cons] at hl
    by_cases hx : p x = true
    · rw [if_pos hx] at hl
      simp only [List.length_cons, Nat.add_le_add_iff_right] at hl
      match l₂ with
      | [] => simp [List.takeWhile] at hl
      | y :: t =>
        rw [List.takeWhile_cons] at hl
        by_cases hy : p y = true
        · exact ⟨x, y, t, rfl, hx, hy⟩
        · simp [hy] at hl
    · simp [hx] at hl

lemma recentHashes_of_reverse {snaps : List StateSnapshot}
    {a b c : StateSnapshot} {r : List StateSnapshot}
    (h : snaps.reverse = a :: b :: c :: r) :
    recentHashes snaps 3 = [c.hash, b.hash, a.hash] := by
  have hs : snaps = r.reverse ++ [c, b, a] := by
    have := congrArg List.reverse h
    simpa using this
  subst hs
  unfold recentHashes
  have hlen : (List.reverse r ++ [c, b, a]).length - 3 = r.length := by
    simp
  rw [hlen]
  rw [show r.length = (List.reverse r).length by simp]
  rw [List.drop_left]
  rfl

lemma consecutive_lt_of_not_allSame {snaps : List StateSnapshot}
    (hlen : 3 ≤ snaps.length)
    (hns : allSameHash (recentHashes snaps 3) = false) :
    consecutiveSameFromEnd snaps < 3 := by
  by_contra hge
  push_neg at hge
  match hrev : snaps.reverse with
  | [] =>
    have : snaps = [] := by simpa using congrArg List.reverse hrev
    simp [this] at hlen
  | last :: rest =>
    have hc : consecutiveSameFromEnd snaps =
        1 + (rest.takeWhile fun s => s.hash == last.hash).length := by
      unfold consecutiveSameFromEnd
      rw [hrev]
    have htk : 2 ≤ (rest.takeWhile fun s => s.hash == last.hash).length := by
      omega
    obtain ⟨x, y, t, hrest, hx, hy⟩ := takeWhile_two_of_le htk
    have hx' : x.hash = last.hash := by simpa using hx
    have hy' : y.hash = last.hash := by simpa using hy
    have hr3 : snaps.reverse = last :: x :: y :: t := by rw [hrev, hrest]
    have := recentHashes_of_reverse hr3
    rw [this, hx', hy'] at hns
    simp [allSameHash] at hns

/-- Claim C1.  `detectStuckState` (with the default threshold 3) reports
`isStuck = true` exactly when at least three snapshots have been recorded and
the three most recent snapshot digests (hashes) are identical. -/
theorem detectStuckState_isStuck_iff (snaps : List StateSnapshot) :
    (detectStuckState snaps 3).isStuck = true ↔
      3 ≤ snaps.length ∧ ∃ h, recentHashes snaps 3 = [h, h, h] := by
  unfold detectStuckState
  by_cases hlen : snaps.length < 3
  · rw [if_pos hlen]
    simp only [Bool.false_eq_true, false_iff, not_and]
    intro h
    omega
  · rw [if_neg hlen]
    push_neg at hlen
    have hl3 : (recentHashes snaps 3).length = 3 := by
      unfold recentHashes
      simp
      omega
    obtain ⟨a, b, c, habc⟩ := List.length_eq_three.mp hl3
    by_cases hall : allSameHash (recentHashes snaps 3) = true
    · rw [if_pos hall]
      simp only [true_iff]
      refine ⟨hlen, ?_⟩
      rw [habc] at hall ⊢
      simp only [allSameHash, List.all_cons, List.all_nil, Bool.and_true,
        Bool.and_eq_true, beq_iff_eq] at hall
      exact ⟨a, by rw [hall.2.1, hall.2.2]⟩
    · rw [if_neg hall]
      have hns : allSameHash (recentHashes snaps 3) = false := by
        simpa using hall
      have hlt := consecutive_lt_of_not_allSame hlen hns
      constructor
      · intro hstuck
        simp only [decide_eq_true_eq] at hstuck
        omega
      · rintro ⟨-, h, hh⟩
        exfalso
        rw [habc] at hh hns
        obtain ⟨h1, h2, h3⟩ : a = h ∧ b = h ∧ c = h := by simpa using hh
        subst h1; subst h2; subst h3
        simp [allSameHash] at hns

lemma findByGoalFields_mem {form : FormState} {goal : Goal} {i : InputState}
    (h : findByGoalFields form goal = some i) :
    i.visible = true ∧ i.disabled = false ∧ i.value = "" := by
  unfold findByGoalFields at h
  cases hrf : goal.requiredFields with
  | none => rw [hrf] at h; simp at h
  | some names =>
    rw [hrf] at h
    obtain ⟨name, -, hfind⟩ := AutoQA.firstSome_eq_some h
    have hp := List.find?_some hfind
    simp only [Bool.and_eq_true, Bool.not_eq_true', beq_iff_eq] at hp
    exact ⟨hp.1.1.1, hp.1.1.2, hp.1.2⟩

/-- Claim C9.  The field chosen by `findNextInputToFill` is never disabled,
and when no explicit goal field instruction matches and some visible,
enabled, empty required field exists, the chosen field is required. -/
theorem findNextInputToFill_spec (state : PageState) (goal : Goal) :
    (∀ i, findNextInputToFill state goal = some i → i.disabled = false)
    ∧ (∀ form, state.forms.head? = some form →
        findByGoalFields form goal = none →
        (∃ i ∈ form.inputs, i.visible = true ∧ i.disabled = false ∧
          i.required = true ∧ i.value = "") →
        ∃ i, findNextInputToFill state goal = some i ∧ i.required = true) := by
  constructor
  · intro i h
    unfold findNextInputToFill at h
    split at h
    · simp at h
    · split at h
      · rename_i form hf input hg
        cases h
        exact (findByGoalFields_mem hg).2.1
      · split at h
        · rename_i e hreq
          cases h
          have hp := List.find?_some hreq
          simp only [Bool.and_eq_true, Bool.not_eq_true'] at hp
          exact hp.1.1.2
        · have hp := List.find?_some h
          simp only [Bool.and_eq_true, Bool.not_eq_true'] at hp
          exact hp.1.2
  · intro form hf hg ⟨w, hw, hwv, hwd, hwr, hwe⟩
    have hsome : (form.inputs.find? fun i =>
        i.visible && !i.disabled && i.required && (i.value == "")).isSome := by
      rw [List.find?_isSome]
      exact ⟨w, hw, by simp [hwv, hwd, hwr, hwe]⟩
    obtain ⟨e, he⟩ := Option.isSome_iff_exists.mp hsome
    have hp := List.find?_some he
    simp only [Bool.and_eq_true, Bool.not_eq_true', beq_iff_eq] at hp
    refine ⟨e, ?_, hp.1.2⟩
    unfold findNextInputToFill
    simp only [hf, hg, he]

/-- Concrete sample: an optional empty input. -/
def sampleOptInput : InputState where
  name := "opt"
  type := "text"
  value := ""
  placeholder := ""
  required := false
  disabled := false
  visible := true
  selector := "#opt"

/-- Concrete sample: a required empty input. -/
def sampleReqInput : InputState where
  name := "req"
  type := "text"
  value := ""
  placeholder := ""
  required := true
  disabled := false
  visible := true
  selector := "#req"

/-- Concrete sample: a form listing the optional input before the required
one. -/
def sampleForm : FormState where
  inputs := [sampleOptInput, sampleReqInput]
  buttons := []
  submitButton := none
  isValid := false
  emptyRequiredFields := ["req"]

/-- Concrete sample: a page state holding only `sampleForm`. -/
def samplePage : PageState where
  url := ""
  title := ""
  forms := [sampleForm]
  buttons := []
  inputs := []
  alerts := []
  modals := []

/-- Closed witness for `findNextInputToFill_spec`: on a concrete page with an
optional empty field listed before a required empty field, the required one
is selected and it is not disabled. -/
theorem findNextInputToFill_spec_witness :
    ∃ i, findNextInputToFill samplePage { name := "g" } = some i ∧
      i.required = true :=
  (findNextInputToFill_spec samplePage { name := "g" }).2 sampleForm rfl rfl
    ⟨sampleReqInput, by simp [sampleForm], rfl, rfl, rfl, rfl⟩

/-- Claim C3 (amended).  When no modal is open and the success indicator is
not satisfied, a found and enabled target button makes `decideNextAction`
return a `click` on that button's selector (in particular, never a `fill`). -/
theorem decideNextAction_click_when_enabled (state : PageState) (goal : Goal)
    (successMet : Bool) (genValue : InputState → String)
    (history : List Action) (b : ButtonState)
    (hmodal : state.modals = [])
    (hsucc : (optTruthy goal.successIndicator && successMet) = false)
    (hfound : findTargetButton state goal = some b)
    (henabled : b.disabled = false) :
    decideNextAction state goal successMet genValue history =
      { type := .click, selector := some b.selector,
        reason := "목표 버튼 활성화됨", confidence := 95/100 } := by
  unfold decideNextAction
  rw [hmodal]
  simp only [hsucc, Bool.false_eq_true, if_false, hfound, henabled,
    Bool.not_false, if_true]

/-- Concrete sample: a visible, enabled "go" button. -/
def sampleGoButton : ButtonState where
  text := "go"
  disabled := false
  visible := true
  selector := "#go"

/-- Concrete sample: a page with only the enabled "go" button and no modal. -/
def samplePageNoModal : PageState where
  url := ""
  title := ""
  forms := []
  buttons := [sampleGoButton]
  inputs := []
  alerts := []
  modals := []

/-- Concrete sample: an empty modal input field. -/
def sampleModalInput : InputState where
  name := "m"
  type := "text"
  value := ""
  placeholder := ""
  required := true
  disabled := false
  visible := true
  selector := "#m"

/-- Concrete sample: an open modal holding one empty input. -/
def sampleModal : ModalState where
  visible := true
  buttons := []
  inputs := [sampleModalInput]

/-- Concrete sample: the enabled "go" button together with an open modal. -/
def samplePageWithModal : PageState where
  url := ""
  title := ""
  forms := []
  buttons := [sampleGoButton]
  inputs := []
  alerts := []
  modals := [sampleModal]

/-- Concrete sample: a goal targeting the "go" button. -/
def sampleGoal : Goal where
  name := "g"
  targetButton := some "go"

/-- Closed witness for `decideNextAction_click_when_enabled`. -/
theorem decideNextAction_click_when_enabled_witness :
    decideNextAction samplePageNoModal sampleGoal false (fun _ => "v") [] =
      { type := .click, selector := some "#go",
        reason := "목표 버튼 활성화됨", confidence := 95/100 } :=
  decideNextAction_click_when_enabled samplePageNoModal sampleGoal false
    (fun _ => "v") [] sampleGoButton rfl rfl (by decide) rfl

/-- Counterexample to claim C3 as stated: with an open modal containing an
empty input, `decideNextAction` returns a `fill` even though the goal's
target button is found, visible and enabled. -/
theorem decideNextAction_modal_fill_counterexample :
    findTargetButton samplePageWithModal sampleGoal = some sampleGoButton
    ∧ sampleGoButton.visible = true
    ∧ sampleGoButton.disabled = false
    ∧ (decideNextAction samplePageWithModal sampleGoal false (fun _ => "v")
        []).type = ActionType.fill := by
  refine ⟨by decide, rfl, rfl, rfl⟩

end ActionDecider

namespace PageStateAnalyzer

/-- Claim C10.  Every page state produced by `analyze` has exactly one form;
its `isValid` flag holds exactly when `emptyRequiredFields` is empty, and
`emptyRequiredFields` is exactly the names of the required, visible inputs
with an empty value. -/
theorem analyze_forms_spec (url title : String) (buttons : List ButtonState)
    (inputs : List InputState) (alerts : List AlertState)
    (modals : List ModalState) (activeTab : Option String) (ts : String) :
    ∃ f, (analyze url title buttons inputs alerts modals activeTab ts).forms
        = [f]
      ∧ (f.isValid = true ↔ f.emptyRequiredFields = [])
      ∧ f.emptyRequiredFields =
          ((inputs.filter fun i =>
            i.required && (i.value == "") && i.visible).map (·.name)) := by
  refine ⟨_, rfl, ?_, rfl⟩
  simp only [analyze, groupIntoForms]
  rw [beq_iff_eq, List.length_eq_zero]

end PageStateAnalyzer

/-! ## SmartFieldAnalyzer (`smart-field-analyzer.ts`) -/

inductive FieldType
  | text | dropdown | combobox | radio | checkbox | datepicker | file
  | textarea | number | password | unknown
deriving Repr, DecidableEq

inductive FieldPurpose
  | name | email | phone | url | channel | campaign | adgroup | creative
  | date | amount | description | search | password | custom | unknown
deriving Repr, DecidableEq

/-- The part of `FieldContext` that `calculateConfidence` reads.  Optional
string attributes are `Option String`; JS truthiness of `context.label`
etc. is `optTruthy`. -/
structure FieldContext where
  selector : String
  tagName : String
  label : Option String := none
  placeholder : Option String := none
  ariaLabel : Option String := none
  helperText : Option String := none
  name : Option String := none
  required : Bool := false
  disabled : Bool := false
  value : Option String := none
  hasDropdownIndicator : Bool := false
  hasAutocomplete : Bool := false
  hasListbox : Bool := false
deriving Repr, DecidableEq

namespace SmartFieldAnalyzer

/-- `SmartFieldAnalyzer.calculateConfidence`, with JS number arithmetic
modelled over `ℚ` (the increments 0.5, 0.2, 0.1 are exact decimals). -/
def calculateConfidence (context : FieldContext) (fieldType : FieldType)
    (purpose : FieldPurpose) : ℚ :=
  let confidence : ℚ := 1/2
  let confidence := if optTruthy context.label then confidence + 2/10
    else confidence
  let confidence := if optTruthy context.placeholder then confidence + 1/10
    else confidence
  let confidence := if optTruthy context.ariaLabel then confidence + 1/10
    else confidence
  let confidence := if fieldType ≠ .unknown then confidence + 1/10
    else confidence
  let confidence := if purpose ≠ .unknown then confidence + 1/10
    else confidence
  min confidence 1

/-- Claim C5.  The classifier's confidence is 0.5 plus 0.2 for a present
label, plus 0.1 each for a present placeholder, a present aria-label, a
resolved field type and a resolved purpose, capped at 1.0. -/
theorem calculateConfidence_formula (context : FieldContext)
    (fieldType : FieldType) (purpose : FieldPurpose) :
    calculateConfidence context fieldType purpose =
      min (1/2
        + (if optTruthy context.label then (2/10 : ℚ) else 0)
        + (if optTruthy context.placeholder then (1/10 : ℚ) else 0)
        + (if optTruthy context.ariaLabel then (1/10 : ℚ) else 0)
        + (if fieldType ≠ .unknown then (1/10 : ℚ) else 0)
        + (if purpose ≠ .unknown then (1/10 : ℚ) else 0)) 1 := by
  unfold calculateConfidence
  split_ifs <;> norm_num

end SmartFieldAnalyzer

/-! ## WaitStrategy (`wait-strategy.ts`, provided as `src/unnamed/part_002`) -/

/-- `WaitResult` (duration abstracted to 0, see the module comment). -/
structure WaitResult where
  success : Bool
  duration : Nat := 0
  reason : Option String := none
deriving Repr, DecidableEq

namespace WaitStrategy

/-- `WaitStrategy.waitForValuePersistence`: the poll loop succeeds exactly
when some polled observation of the field (input value, `value` attribute,
or trimmed text content) equals the expected value.  The sequence of
observations made before the timeout is the `observations` oracle. -/
def waitForValuePersistence (observations : List String)
    (expectedValue : String) (finalValue : String) : WaitResult :=
  if observations.any (· == expectedValue) then
    { success := true }
  else
    { success := false
      reason := some ("Value not persisted. Expected: " ++ expectedValue
        ++ ", Got: " ++ finalValue) }

/-- `WaitStrategy.waitForStableState`: the DOM-stability wait and the
network-idle wait run concurrently under `Promise.all` (each catches its own
failures and returns a `WaitResult`, so the surrounding try/catch is inert);
the composite result is built from the two component results. -/
def waitForStableState (domResult networkResult : WaitResult) : WaitResult :=
  let success := domResult.success && networkResult.success
  { success := success
    reason := if success then none
      else some ("DOM: " ++ (domResult.reason.getD "ok")
        ++ ", Network: " ++ (networkResult.reason.getD "ok")) }

/-- Claim C6.  The composite stable-state wait succeeds exactly when both
the DOM-stability wait and the network-idle wait succeed. -/
theorem waitForStableState_success_iff (domResult networkResult : WaitResult) :
    (waitForStableState domResult networkResult).success = true ↔
      domResult.success = true ∧ networkResult.success = true := by
  unfold waitForStableState
  simp

end WaitStrategy

/-! ## InteractionHandler (`interaction-handler.ts`) and the legacy fill path
(`auto-pilot.ts`) -/

/-- `InteractionResult` (duration abstracted to 0). -/
structure InteractionResult where
  success : Bool
  method : Option String := none
  attempts : Nat
  duration : Nat := 0
  error : Option String := none
  finalValue : Option String := none
deriving Repr, DecidableEq

/-- Oracle describing the page's behaviour during one `handleTextInput`
call: whether the wait/click/clear/type prefix throws (and its message), the
values observed while polling for persistence, and the value read back after
the Tab + outside-click retry. -/
structure TextInputEnv where
  prefixThrows : Bool
  prefixErrMsg : String := ""
  observations : List String
  finalPollValue : String := ""
  retryReadValue : String
deriving Repr, DecidableEq

namespace InteractionHandler

/-- `InteractionHandler.handleTextInput`: click, clear and type the value,
trigger blur, wait for the value to persist; on persistence failure, retry
with Tab + outside click and re-read the field, reporting failure when the
read-back value still differs from the written value. -/
def handleTextInput (value : String) (env : TextInputEnv) :
    InteractionResult :=
  if env.prefixThrows then
    { success := false, method := some "text-input", attempts := 1,
      error := some env.prefixErrMsg }
  else
    let persistResult := WaitStrategy.waitForValuePersistence
      env.observations value env.finalPollValue
    if !persistResult.success then
      -- retry: Tab + outside click, then re-read the field
      if env.retryReadValue != value then
        { success := false, method := some "text-input", attempts := 1,
          error := some ("Value not persisted. Expected: " ++ value
            ++ ", Got: " ++ env.retryReadValue),
          finalValue := some env.retryReadValue }
      else
        { success := true, method := some "text-input", attempts := 1,
          finalValue := some value }
    else
      { success := true, method := some "text-input", attempts := 1,
        finalValue := some value }

end InteractionHandler

/-- Oracle for one `AutoPilot.fillInputLegacy` call: whether any of the
interaction calls before the final verification throws (propagated to the
caller), the value read at the final verification, and the value read after
the clear + fill + Tab retry. -/
structure LegacyFillEnv where
  prefixThrows : Bool
  prefixErrMsg : String := ""
  finalValue : String
  retryValue : String
deriving Repr, DecidableEq

namespace AutoPilot

/-- `AutoPilot.fillInputLegacy`: after typing and blur handling, re-read the
field; on mismatch retry once with `fill` + Tab and throw when the re-read
value still differs from the written value. -/
def fillInputLegacy (value : String) (env : LegacyFillEnv) :
    Except String Unit :=
  if env.prefixThrows then .error env.prefixErrMsg
  else if env.finalValue != value then
    if env.retryValue != value then
      .error ("Value not persisted after retry. Expected: " ++ value
        ++ ", Got: " ++ env.retryValue)
    else .ok ()
  else .ok ()

end AutoPilot

/-- Claim C2.  A text-field fill never reports success while the persisted
value differs from the written value: `handleTextInput` succeeds only if
some persistence poll observed the written value or the post-retry read-back
equals it, and `fillInputLegacy` returns without throwing only if the final
or retry read-back equals the written value. -/
theorem fill_success_implies_persisted (value : String) (env : TextInputEnv)
    (lenv : LegacyFillEnv) :
    ((InteractionHandler.handleTextInput value env).success = true →
      value ∈ env.observations ∨ env.retryReadValue = value)
    ∧ (AutoPilot.fillInputLegacy value lenv = .ok () →
      lenv.finalValue = value ∨ lenv.retryValue = value) := by
  constructor
  · intro h
    unfold InteractionHandler.handleTextInput at h
    by_cases hp : env.prefixThrows
    · simp [hp] at h
    · simp only [hp, if_false, Bool.false_eq_true] at h
      by_cases hobs : env.observations.any (· == value)
      · left
        obtain ⟨x, hx, hxe⟩ := List.any_eq_true.mp hobs
        rw [beq_iff_eq] at hxe
        subst hxe
        exact hx
      · right
        rw [WaitStrategy.waitForValuePersistence] at h
        rw [if_neg hobs] at h
        simp only [Bool.not_false, if_true] at h
        by_cases hr : env.retryReadValue = value
        · exact hr
        · exfalso
          have : (env.retryReadValue != value) = true := by
            simpa using hr
          rw [if_pos this] at h
          simp at h
  · intro h
    unfold AutoPilot.fillInputLegacy at h
    by_cases hp : lenv.prefixThrows
    · simp [hp] at h
    · simp only [hp, if_false, Bool.false_eq_true] at h
      by_cases hf : lenv.finalValue = value
      · exact Or.inl hf
      · right
        have hf' : (lenv.finalValue != value) = true := by simpa using hf
        rw [if_pos hf'] at h
        by_cases hr : lenv.retryValue = value
        · exact hr
        · exfalso
          have hr' : (lenv.retryValue != value) = true := by simpa using hr
          rw [if_pos hr'] at h
          simp at h

/-- Concrete sample environment where persistence succeeds on the first
poll. -/
def sampleTextEnv : TextInputEnv where
  prefixThrows := false
  observations := ["v"]
  retryReadValue := "x"

/-- Concrete sample environment where the legacy final read matches. -/
def sampleLegacyEnv : LegacyFillEnv where
  prefixThrows := false
  finalValue := "v"
  retryValue := "y"

/-- Closed witness for `fill_success_implies_persisted` at concrete
environments. -/
theorem fill_success_implies_persisted_witness :
    ("v" ∈ sampleTextEnv.observations ∨ sampleTextEnv.retryReadValue = "v")
    ∧ (sampleLegacyEnv.finalValue = "v" ∨ sampleLegacyEnv.retryValue = "v") :=
  ⟨(fill_success_implies_persisted "v" sampleTextEnv sampleLegacyEnv).1 rfl,
   (fill_success_implies_persisted "v" sampleTextEnv sampleLegacyEnv).2 rfl⟩

/-! ## DropdownHandler (`dropdown-handler.ts`)

The CSS-selector escaping (`escapeForSelector`) only serialises the value
into selector syntax; the browser matches the unescaped text, so matching is
modelled on the raw value. -/

/-- A visible `[role="option"]` element: its text and `data-value`. -/
structure DropOption where
  text : String
  dataValue : Option String := none
deriving Repr, DecidableEq

/-- A visible element reachable by the "add button" patterns of
`tryAddButton`; `classCreateOrAdd` marks the elements found through the
`[class*="create"]` / `[class*="add"]` selectors. -/
structure AddCandidate where
  text : String
  classCreateOrAdd : Bool := false
deriving Repr, DecidableEq

/-- Oracle describing the dropdown surface during one `trySelectOption`
call. -/
structure DropdownEnv where
  options : List DropOption
  listItems : List String
  enterClosesDropdown : Bool
  addCandidates : List AddCandidate
  tabClosesDropdown : Bool
  focusSeq : List String
deriving Repr, DecidableEq

/-- Result core of a dropdown selection method (`attempts`/`duration`
added by the caller). -/
structure DropdownResultCore where
  success : Bool
  method : String
  selectedValue : Option String := none
  error : Option String := none
deriving Repr, DecidableEq

namespace DropdownHandler

/-- `:has-text("v")` on an option: substring match. -/
def optionMatchesHasText (o : DropOption) (v : String) : Bool :=
  strIncludes o.text v

/-- `:text-is("v")` on an option: exact text match. -/
def optionMatchesTextIs (o : DropOption) (v : String) : Bool :=
  o.text == v

/-- `[data-value="v"]` on an option. -/
def optionMatchesDataValue (o : DropOption) (v : String) : Bool :=
  o.dataValue == some v

/-- The `[role="option"]` selector predicates tried by `tryRoleOptionClick`,
in priority order. -/
def roleOptionSelectors (value : String) (exactMatch : Bool) :
    List (DropOption → Bool) :=
  if exactMatch then
    [fun o => optionMatchesTextIs o value,
     fun o => optionMatchesDataValue o value]
  else
    [fun o => optionMatchesHasText o value,
     fun o => optionMatchesTextIs o value,
     fun o => optionMatchesDataValue o value]

/-- Method 1 (`tryRoleOptionClick`): try the `[role="option"]` selectors in
priority order and click the first visible match. -/
def tryRoleOptionClick (env : DropdownEnv) (value : String)
    (exactMatch : Bool) : DropdownResultCore :=
  match firstSome (roleOptionSelectors value exactMatch)
      (fun sel => env.options.find? sel) with
  | some o =>
    let t := o.text.trim
    { success := true, method := "role-option-click",
      selectedValue := some (if t == "" then value else t) }
  | none => { success := false, method := "role-option-click" }

/-- Method 2 (`tryListitemClick`): click the first visible list item whose
text contains the value. -/
def tryListitemClick (env : DropdownEnv) (value : String) :
    DropdownResultCore :=
  match env.listItems.find? (fun t => strIncludes t value) with
  | some _ =>
    { success := true, method := "listitem-click", selectedValue := some value }
  | none => { success := false, method := "listitem-click" }

/-- Method 3 (`tryEnterKey`): press Enter and report success when the
dropdown is closed afterwards — independent of any option matching. -/
def tryEnterKey (env : DropdownEnv) : DropdownResultCore :=
  if env.enterClosesDropdown then
    { success := true, method := "enter-key" }
  else
    { success := false, method := "enter-key" }

/-- An add-pattern candidate is reachable when its text carries one of the
"v 추가" shapes, and is clicked only when it also carries a create marker. -/
def addCandHit (c : AddCandidate) (v : String) : Bool :=
  (strIncludes c.text (v ++ " 추가")
    || (strIncludes c.text "추가" && strIncludes c.text v)
    || (c.classCreateOrAdd && strIncludes c.text v))
  && (strIncludes c.text "추가" || strIncludes c.text "Add"
    || strIncludes c.text "Create")

/-- Method 4 (`tryAddButton`). -/
def tryAddButton (env : DropdownEnv) (value : String) : DropdownResultCore :=
  match env.addCandidates.find? (fun c => addCandHit c value) with
  | some _ =>
    { success := true, method := "add-button-click",
      selectedValue := some value }
  | none => { success := false, method := "add-button-click" }

/-- Method 5 (`tryTabBlur`): Tab and report success when the dropdown is
closed afterwards — independent of any option matching. -/
def tryTabBlur (env : DropdownEnv) : DropdownResultCore :=
  if env.tabClosesDropdown then
    { success := true, method := "tab-blur" }
  else
    { success := false, method := "tab-blur" }

/-- Method 6 (`tryKeyboardNavigation`): up to 10 ArrowDown steps, pressing
Enter when the focused option's text contains the value. -/
def tryKeyboardNavigation (env : DropdownEnv) (value : String) :
    DropdownResultCore :=
  match (env.focusSeq.take 10).find? (fun t => strIncludes t value) with
  | some t =>
    { success := true, method := "keyboard-navigation",
      selectedValue := some t.trim }
  | none => { success := false, method := "keyboard-navigation" }

/-- `DropdownHandler.trySelectOption`: the six methods in priority order;
the add-button method only when `allowCreate`. -/
def trySelectOption (env : DropdownEnv) (value : String)
    (allowCreate exactMatch : Bool) : DropdownResultCore :=
  let r1 := tryRoleOptionClick env value exactMatch
  if r1.success then r1
  else
    let r2 := tryListitemClick env value
    if r2.success then r2
    else
      let r3 := tryEnterKey env
      if r3.success then { r3 with selectedValue := some value }
      else
        let r4 := tryAddButton env value
        if allowCreate && r4.success then r4
        else
          let r5 := tryTabBlur env
          if r5.success then { r5 with selectedValue := some value }
          else
            let r6 := tryKeyboardNavigation env value
            if r6.success then r6
            else
              { success := false, method := "failed",
                error := some ("No option found for " ++ value) }

/-- Concrete sample: an empty dropdown where pressing Enter closes it. -/
def sampleEnterEnv : DropdownEnv where
  options := []
  listItems := []
  enterClosesDropdown := true
  addCandidates := []
  tabClosesDropdown := false
  focusSeq := []

/-- Concrete sample: an empty dropdown where only Tab-blur closes it. -/
def sampleTabEnv : DropdownEnv where
  options := []
  listItems := []
  enterClosesDropdown := false
  addCandidates := []
  tabClosesDropdown := true
  focusSeq := []

/-- Counterexample to claim C4 as stated: on a dropdown with no option at
all (hence no option matching the requested value) and `allowCreate = false`,
`trySelectOption` still returns `success = true` via the blind Enter-key
confirmation when pressing Enter closes the dropdown. -/
theorem trySelectOption_blind_enter_counterexample :
    sampleEnterEnv.options = [] ∧ sampleEnterEnv.listItems = []
    ∧ (trySelectOption sampleEnterEnv "x" false false).success = true
    ∧ (trySelectOption sampleEnterEnv "x" false false).method = "enter-key" :=
  ⟨rfl, rfl, rfl, rfl⟩

/-- Claim C4 (amended).  With `allowCreate = false` and no option or list
item matching the requested value, the matching-based methods all fail, and
`trySelectOption` reports success exactly when one of the value-independent
confirmation fallbacks fires: Enter closes the dropdown, Tab closes the
dropdown, or keyboard navigation focuses an option whose text contains the
value; otherwise it returns `success = false`. -/
theorem trySelectOption_noMatch_success_iff (env : DropdownEnv)
    (value : String) (exactMatch : Bool)
    (hopt : ∀ o ∈ env.options, strIncludes o.text value = false
      ∧ (o.text == value) = false ∧ (o.dataValue == some value) = false)
    (hli : ∀ t ∈ env.listItems, strIncludes t value = false) :
    (trySelectOption env value false exactMatch).success = true ↔
      (env.enterClosesDropdown = true ∨ env.tabClosesDropdown = true
        ∨ ∃ t ∈ env.focusSeq.take 10, strIncludes t value = true) := by
  have hfind : ∀ sel ∈ roleOptionSelectors value exactMatch,
      env.options.find? sel = none := by
    intro sel hsel
    rw [List.find?_eq_none]
    intro o ho
    obtain ⟨ha, hb, hc⟩ := hopt o ho
    unfold roleOptionSelectors at hsel
    cases exactMatch with
    | true =>
      rw [if_pos rfl] at hsel
      obtain h | h : sel = (fun o => optionMatchesTextIs o value)
          ∨ sel = (fun o => optionMatchesDataValue o value) := by
        simpa using hsel
      · subst h; simpa [optionMatchesTextIs] using hb
      · subst h; simpa [optionMatchesDataValue] using hc
    | false =>
      rw [if_neg (by simp)] at hsel
      obtain h | h | h : sel = (fun o => optionMatchesHasText o value)
          ∨ sel = (fun o => optionMatchesTextIs o value)
          ∨ sel = (fun o => optionMatchesDataValue o value) := by
        simpa using hsel
      · subst h; simpa [optionMatchesHasText] using ha
      · subst h; simpa [optionMatchesTextIs] using hb
      · subst h; simpa [optionMatchesDataValue] using hc
  have h1 : tryRoleOptionClick env value exactMatch =
      { success := false, method := "role-option-click" } := by
    unfold tryRoleOptionClick
    rw [firstSome_eq_none hfind]
  have h2 : tryListitemClick env value =
      { success := false, method := "listitem-click" } := by
    unfold tryListitemClick
    rw [show env.listItems.find? (fun t => strIncludes t value) = none by
      rw [List.find?_eq_none]
      intro t ht
      simp [hli t ht]]
  have hmain : (trySelectOption env value false exactMatch).success
      = (env.enterClosesDropdown || env.tabClosesDropdown
        || ((env.focusSeq.take 10).find? fun t => strIncludes t value).isSome)
      := by
    unfold trySelectOption
    rw [h1, h2]
    by_cases he : env.enterClosesDropdown
    · simp [tryEnterKey, he]
    · have he' : env.enterClosesDropdown = false := by simpa using he
      by_cases ht : env.tabClosesDropdown
      · simp [tryEnterKey, tryTabBlur, he', ht]
      · have ht' : env.tabClosesDropdown = false := by simpa using ht
        cases hk : (env.focusSeq.take 10).find? fun t => strIncludes t value
          with
        | some t =>
          simp [tryEnterKey, tryTabBlur, tryKeyboardNavigation, he', ht', hk]
        | none =>
          simp [tryEnterKey, tryTabBlur, tryKeyboardNavigation, he', ht', hk]
  rw [hmain]
  simp only [Bool.or_eq_true, List.find?_isSome]
  tauto

/-- Closed witness for `trySelectOption_noMatch_success_iff`: on the empty
dropdown where only Tab-blur closes it, the amended characterisation yields
`success = true`. -/
theorem trySelectOption_noMatch_success_iff_witness :
    (trySelectOption sampleTabEnv "x" false false).success = true :=
  (trySelectOption_noMatch_success_iff sampleTabEnv "x" false
      (by intro o ho; simp [sampleTabEnv] at ho)
      (by intro t ht; simp [sampleTabEnv] at ht)).mpr
    (Or.inr (Or.inl rfl))

end DropdownHandler

/-! ## ErrorRecovery (`error-recovery.ts`) -/

inductive ErrorType
  | elementNotFound | elementNotVisible | elementNotInteractable
  | elementDetached | valueNotPersisted | timeout | navigationError
  | networkError | selectorAmbiguous | unknown
deriving Repr, DecidableEq

inductive RecoveryStrategyType
  | retryWithWait | scrollIntoView | alternativeSelector | refreshPage
  | clearAndRetry | extendTimeout | differentBlurMethod | waitForNetwork
  | clickOverlayDismiss | noneStrategy
deriving Repr, DecidableEq

/-- How a strategy's `execute` closure behaves in the source: three of them
unconditionally return `true` after waiting, two unconditionally return
`false` (alternative-selector and refresh-page are handled outside the
closure), and the rest depend on the page (oracle). -/
inductive StratBehavior
  | alwaysTrue | alwaysFalse | fromOracle
deriving Repr, DecidableEq

structure RecoveryStrategySpec where
  errorTypes : List ErrorType
  strategyType : RecoveryStrategyType
  priority : Nat
  behavior : StratBehavior
deriving Repr, DecidableEq

structure RecoveryOptions where
  maxRetries : Nat := 3
  timeout : Nat := 10000
  allowPageRefresh : Bool := false
  preserveState : Bool := true
deriving Repr, DecidableEq

structure RecoveryResult where
  success : Bool
  strategy : RecoveryStrategyType
  attempts : Nat
  duration : Nat := 0
  errorType : ErrorType
  newSelector : Option String := none
  message : String
deriving Repr, DecidableEq

/-- Result of one `attemptRecovery` call together with its observable page
effects: the strategies whose execution was started, and whether the final
`page.reload` was performed. -/
structure RecoveryRun where
  result : RecoveryResult
  executed : List RecoveryStrategyType
  didReload : Bool
deriving Repr, DecidableEq

namespace ErrorRecovery

/-- `ErrorRecovery.classifyError`: keyword matching on the lower-cased
message, in source order. -/
def classifyError (message : String) : ErrorType :=
  let m := strToLower message
  if strIncludes m "not found" || strIncludes m "no element"
      || strIncludes m "locator resolved to" then .elementNotFound
  else if strIncludes m "not visible" || strIncludes m "hidden" then
    .elementNotVisible
  else if strIncludes m "not interactable" || strIncludes m "intercept"
      || strIncludes m "clickable" then .elementNotInteractable
  else if strIncludes m "detached" || strIncludes m "stale" then
    .elementDetached
  else if strIncludes m "timeout" || strIncludes m "exceeded" then .timeout
  else if strIncludes m "navigation" || strIncludes m "navigate" then
    .navigationError
  else if strIncludes m "network" || strIncludes m "fetch"
      || strIncludes m "net::" then .networkError
  else if strIncludes m "multiple" || strIncludes m "strict mode" then
    .selectorAmbiguous
  else if strIncludes m "value" && (strIncludes m "persist"
      || strIncludes m "mismatch") then .valueNotPersisted
  else .unknown

/-- The strategy table built by the constructor, in registration order
(which is also ascending priority order). -/
def strategyTable : List RecoveryStrategySpec :=
  [⟨[.elementNotVisible, .elementNotInteractable], .scrollIntoView, 1,
      .fromOracle⟩,
   ⟨[.elementNotInteractable], .clickOverlayDismiss, 2, .fromOracle⟩,
   ⟨[.elementNotFound, .selectorAmbiguous], .alternativeSelector, 3,
      .alwaysFalse⟩,
   ⟨[.valueNotPersisted], .differentBlurMethod, 4, .fromOracle⟩,
   ⟨[.timeout], .extendTimeout, 5, .alwaysTrue⟩,
   ⟨[.networkError], .waitForNetwork, 6, .fromOracle⟩,
   ⟨[.elementDetached], .retryWithWait, 7, .alwaysTrue⟩,
   ⟨[.elementNotFound, .elementNotInteractable, .unknown], .clearAndRetry, 8,
      .alwaysTrue⟩,
   ⟨[.navigationError, .unknown], .refreshPage, 10, .alwaysFalse⟩]

/-- One pass over the applicable strategies inside an attempt: returns the
strategies whose execution was started and, when one succeeded, the success
result.  `stratOracle`/`altOracle` stand for the page-dependent outcomes of
the oracle-driven strategy closures and of `tryAlternativeSelector`. -/
def runStrategiesOnce (errorType : ErrorType) (opts : RecoveryOptions)
    (stratOracle : Nat → RecoveryStrategyType → Bool)
    (altOracle : Nat → Option String) (attempt : Nat) :
    List RecoveryStrategySpec →
      List RecoveryStrategyType × Option RecoveryResult
  | [] => ([], none)
  | s :: rest =>
    -- page refresh strategy only when the caller opted in
    if s.strategyType == .refreshPage && !opts.allowPageRefresh then
      runStrategiesOnce errorType opts stratOracle altOracle attempt rest
    else if s.strategyType == .alternativeSelector then
      match altOracle attempt with
      | some sel =>
        ([s.strategyType],
         some { success := true, strategy := .alternativeSelector,
                attempts := attempt, errorType := errorType,
                newSelector := some sel,
                message := "Found alternative selector" })
      | none =>
        let next := runStrategiesOnce errorType opts stratOracle altOracle
          attempt rest
        (s.strategyType :: next.1, next.2)
    else
      let ok := match s.behavior with
        | .alwaysTrue => true
        | .alwaysFalse => false
        | .fromOracle => stratOracle attempt s.strategyType
      if ok then
        ([s.strategyType],
         some { success := true, strategy := s.strategyType,
                attempts := attempt, errorType := errorType,
                message := "Recovered" })
      else
        let next := runStrategiesOnce errorType opts stratOracle altOracle
          attempt rest
        (s.strategyType :: next.1, next.2)

/-- The `for attempt = 1..maxRetries` loop of `attemptRecovery`. -/
def attemptLoop (errorType : ErrorType) (opts : RecoveryOptions)
    (stratOracle : Nat → RecoveryStrategyType → Bool)
    (altOracle : Nat → Option String)
    (applicable : List RecoveryStrategySpec) :
    Nat → Nat → List RecoveryStrategyType →
      List RecoveryStrategyType × Option RecoveryResult
  | 0, _, acc => (acc, none)
  | rem + 1, attempt, acc =>
    let once := runStrategiesOnce errorType opts stratOracle altOracle
      attempt applicable
    match once.2 with
    | some res => (acc ++ once.1, some res)
    | none =>
      attemptLoop errorType opts stratOracle altOracle applicable rem
        (attempt + 1) (acc ++ once.1)

/-- JS stable `Array.prototype.sort` with the `a.priority - b.priority`
comparator, as a stable insertion sort (the table's priorities are
distinct, so any stable sort agrees). -/
def insertByPriority (s : RecoveryStrategySpec) :
    List RecoveryStrategySpec → List RecoveryStrategySpec
  | [] => [s]
  | t :: ts =>
    if s.priority ≤ t.priority then s :: t :: ts
    else t :: insertByPriority s ts

def sortByPriority : List RecoveryStrategySpec → List RecoveryStrategySpec
  | [] => []
  | x :: xs => insertByPriority x (sortByPriority xs)

/-- The "no applicable strategy" result of `attemptRecovery`. -/
def noStrategyRun (errorType : ErrorType) : RecoveryRun where
  result :=
    { success := false, strategy := .noneStrategy, attempts := 0,
      errorType := errorType,
      message := "No recovery strategy for error type" }
  executed := []
  didReload := false

/-- The failure result returned after all attempts are exhausted. -/
def exhaustedResult (errorType : ErrorType) (maxRetries : Nat) :
    RecoveryResult where
  success := false
  strategy := .noneStrategy
  attempts := maxRetries
  errorType := errorType
  message := "Failed to recover"

/-- Tail of `attemptRecovery` after the attempt loop: on a strategy success
return it, else reload the page as a last resort — only when
`allowPageRefresh` is set and `preserveState` is not. -/
def finishRecovery (errorType : ErrorType) (opts : RecoveryOptions)
    (reloadOk : Bool)
    (looped : List RecoveryStrategyType × Option RecoveryResult) :
    RecoveryRun :=
  match looped.2 with
  | some res => { result := res, executed := looped.1, didReload := false }
  | none =>
    if opts.allowPageRefresh && !opts.preserveState then
      if reloadOk then
        { result :=
            { success := true, strategy := .refreshPage,
              attempts := opts.maxRetries + 1, errorType := errorType,
              message := "Recovered by page refresh" }
          executed := looped.1
          didReload := true }
      else
        { result := exhaustedResult errorType opts.maxRetries
          executed := looped.1
          didReload := true }
    else
      { result := exhaustedResult errorType opts.maxRetries
        executed := looped.1
        didReload := false }

/-- `ErrorRecovery.attemptRecovery`: classify, filter and priority-sort the
strategies, try them over `maxRetries` attempts, and as a last resort reload
the page — but only when `allowPageRefresh` is set and `preserveState` is
not. -/
def attemptRecovery (errorMessage : String) (opts : RecoveryOptions)
    (stratOracle : Nat → RecoveryStrategyType → Bool)
    (altOracle : Nat → Option String) (reloadOk : Bool) : RecoveryRun :=
  let errorType := classifyError errorMessage
  let applicable := strategyTable.filter fun s =>
    s.errorTypes.contains errorType
  let sorted := sortByPriority applicable
  if sorted.isEmpty then noStrategyRun errorType
  else
    finishRecovery errorType opts reloadOk
      (attemptLoop errorType opts stratOracle altOracle sorted
        opts.maxRetries 1 [])

lemma runStrategiesOnce_refresh_mem {errorType : ErrorType}
    {opts : RecoveryOptions}
    {stratOracle : Nat → RecoveryStrategyType → Bool}
    {altOracle : Nat → Option String} {attempt : Nat} :
    ∀ {l : List RecoveryStrategySpec},
      RecoveryStrategyType.refreshPage ∈
        (runStrategiesOnce errorType opts stratOracle altOracle attempt l).1 →
      opts.allowPageRefresh = true := by
  intro l
  induction l with
  | nil => simp [runStrategiesOnce]
  | cons s rest ih =>
    intro hmem
    rw [runStrategiesOnce] at hmem
    by_cases hskip : (s.strategyType == RecoveryStrategyType.refreshPage
        && !opts.allowPageRefresh) = true
    · rw [if_pos hskip] at hmem
      exact ih hmem
    · rw [if_neg hskip] at hmem
      have hcase : s.strategyType = .refreshPage →
          opts.allowPageRefresh = true := by
        intro hs
        by_cases ha : opts.allowPageRefresh = true
        · exact ha
        · exfalso
          apply hskip
          simp [hs, Bool.not_eq_true] at ha ⊢
          exact ha
      by_cases halt :
          (s.strategyType == RecoveryStrategyType.alternativeSelector) = true
      · rw [if_pos halt] at hmem
        cases halts : altOracle attempt with
        | some sel =>
          rw [halts] at hmem
          simp only [List.mem_singleton] at hmem
          exact hcase (by rw [← hmem])
        | none =>
          rw [halts] at hmem
          simp only [List.mem_cons] at hmem
          rcases hmem with hmem | hmem
          · exact hcase (by rw [← hmem])
          · exact ih hmem
      · rw [if_neg halt] at hmem
        by_cases hok : (match s.behavior with
            | .alwaysTrue => true
            | .alwaysFalse => false
            | .fromOracle => stratOracle attempt s.strategyType) = true
        · rw [if_pos hok] at hmem
          simp only [List.mem_singleton] at hmem
          exact hcase (by rw [← hmem])
        · rw [if_neg hok] at hmem
          simp only [List.mem_cons] at hmem
          rcases hmem with hmem | hmem
          · exact hcase (by rw [← hmem])
          · exact ih hmem

lemma attemptLoop_refresh_mem {errorType : ErrorType}
    {opts : RecoveryOptions}
    {stratOracle : Nat → RecoveryStrategyType → Bool}
    {altOracle : Nat → Option String}
    {applicable : List RecoveryStrategySpec} :
    ∀ (rem attempt : Nat) (acc : List RecoveryStrategyType),
      RecoveryStrategyType.refreshPage ∈
        (attemptLoop errorType opts stratOracle altOracle applicable rem
          attempt acc).1 →
      RecoveryStrategyType.refreshPage ∈ acc ∨
        opts.allowPageRefresh = true := by
  intro rem
  induction rem with
  | zero => intro attempt acc h; exact Or.inl (by simpa [attemptLoop] using h)
  | succ n ih =>
    intro attempt acc h
    rw [attemptLoop] at h
    cases hres : (runStrategiesOnce errorType opts stratOracle altOracle
        attempt applicable).2 with
    | some res =>
      rw [hres] at h
      simp only [List.mem_append] at h
      rcases h with h | h
      · exact Or.inl h
      · exact Or.inr (runStrategiesOnce_refresh_mem h)
    | none =>
      rw [hres] at h
      rcases ih _ _ h with h | h
      · simp only [List.mem_append] at h
        rcases h with h | h
        · exact Or.inl h
        · exact Or.inr (runStrategiesOnce_refresh_mem h)
      · exact Or.inr h

lemma finishRecovery_didReload {errorType : ErrorType}
    {opts : RecoveryOptions} {reloadOk : Bool}
    {looped : List RecoveryStrategyType × Option RecoveryResult}
    (h : (finishRecovery errorType opts reloadOk looped).didReload = true) :
    opts.allowPageRefresh = true ∧ opts.preserveState = false := by
  unfold finishRecovery at h
  cases hl : looped.2 with
  | some res => rw [hl] at h; simp at h
  | none =>
    rw [hl] at h
    by_cases hguard : (opts.allowPageRefresh && !opts.preserveState) = true
    · obtain ⟨h1, h2⟩ := Bool.and_eq_true _ _ |>.mp hguard
      exact ⟨h1, by simpa using h2⟩
    · rw [if_neg hguard] at h
      simp at h

lemma finishRecovery_executed (errorType : ErrorType)
    (opts : RecoveryOptions) (reloadOk : Bool)
    (looped : List RecoveryStrategyType × Option RecoveryResult) :
    (finishRecovery errorType opts reloadOk looped).executed = looped.1 := by
  unfold finishRecovery
  cases hl : looped.2 with
  | some res => rfl
  | none => split_ifs <;> rfl

/-- Claim C7.  `attemptRecovery` never reloads the page unless the caller
opted in (`allowPageRefresh = true` and `preserveState = false`), and the
refresh-page strategy is never even started while `allowPageRefresh` is
false. -/
theorem attemptRecovery_refresh_optin (errorMessage : String)
    (opts : RecoveryOptions)
    (stratOracle : Nat → RecoveryStrategyType → Bool)
    (altOracle : Nat → Option String) (reloadOk : Bool) :
    ((attemptRecovery errorMessage opts stratOracle altOracle
        reloadOk).didReload = true →
      opts.allowPageRefresh = true ∧ opts.preserveState = false)
    ∧ (RecoveryStrategyType.refreshPage ∈
        (attemptRecovery errorMessage opts stratOracle altOracle
          reloadOk).executed →
      opts.allowPageRefresh = true) := by
  unfold attemptRecovery
  by_cases hempty : (sortByPriority (strategyTable.filter fun s =>
      s.errorTypes.contains (classifyError errorMessage))).isEmpty = true
  · rw [if_pos hempty]
    constructor
    · intro h; simp [noStrategyRun] at h
    · intro h; simp [noStrategyRun] at h
  · rw [if_neg hempty]
    constructor
    · exact finishRecovery_didReload
    · intro h
      rw [finishRecovery_executed] at h
      rcases attemptLoop_refresh_mem _ _ [] h with hc | hc
      · simp at hc
      · exact hc

/-- Closed witness for `attemptRecovery_refresh_optin`: with refresh opted
in, a non-preserved state, and every oracle failing, the reload is performed
and the theorem yields the opt-in flags. -/
theorem attemptRecovery_refresh_optin_witness :
    ({ maxRetries := 1, allowPageRefresh := true, preserveState := false
        : RecoveryOptions }).allowPageRefresh = true
    ∧ ({ maxRetries := 1, allowPageRefresh := true, preserveState := false
        : RecoveryOptions }).preserveState = false :=
  (attemptRecovery_refresh_optin "navigation to page failed"
      { maxRetries := 1, allowPageRefresh := true, preserveState := false }
      (fun _ _ => false) (fun _ => none) true).1 (by rfl)

end ErrorRecovery

/-! ## The AutoPilot orchestration loop (`auto-pilot.ts`, `execute`) -/

structure AutoPilotConfig where
  maxSteps : Nat := 20
  stepDelay : Nat := 500
  typeDelay : Nat := 30
  retryOnError : Bool := true
  maxRetries : Nat := 2
deriving Repr, DecidableEq

structure ExecutionStep where
  step : Nat
  action : Action
  success : Bool
  error : Option String := none
deriving Repr, DecidableEq

structure ExecutionResult where
  success : Bool
  steps : List ExecutionStep
  error : Option String := none
deriving Repr, DecidableEq

/-- Oracle describing what iteration `i` of the `execute` loop encounters:
the (optional) explicit-instruction action produced by
`processNextInstruction`, the action decided by `decideNextAction` (or a
thrown decision error, escaping to the outer catch), and whether the
page-effect part of `executeAction` throws. -/
structure IterOutcome where
  instruction : Option Action := none
  instrExecOracle : Bool := false
  instrErrMsg : String := ""
  decideThrows : Bool := false
  decideErrMsg : String := ""
  action : Action
  execOracle : Bool := false
  execErrMsg : String := ""

namespace AutoPilot

/-- `AutoPilot.executeAction`: throws on a `fill`/`click`/`select` action
with a missing (or empty, JS-falsy) selector/value, throws on the unknown
action types `done`/`blocked`/`explore` (the `default` case), and otherwise
succeeds or fails according to the page (oracle). -/
def executeActionThrows (a : Action) (oracleThrows : Bool) : Bool :=
  match a.type with
  | .fill => !optTruthy a.selector || !optTruthy a.value || oracleThrows
  | .click => !optTruthy a.selector || oracleThrows
  | .select => !optTruthy a.selector || !optTruthy a.value || oracleThrows
  | .wait => oracleThrows
  | .escape => oracleThrows
  | .tab => oracleThrows
  | .done => true
  | .blocked => true
  | .explore => true

/-- An `ExecutionStep` record (timestamp and state snapshot abstracted). -/
def mkStep (i : Nat) (a : Action) (ok : Bool) (err : Option String) :
    ExecutionStep :=
  { step := i, action := a, success := ok, error := err }

/-- The `while (currentStep < maxSteps)` loop of `AutoPilot.execute`,
with fuel `rem = maxSteps - currentStep`.  Each iteration: explicit
instruction first (when the goal has field instructions); otherwise decide
the next action, returning success on `done`, failing (after the retry
budget) on `blocked`, failing on `explore` once the retry budget is
exhausted, and otherwise executing the action, catching execution errors as
a failed step. -/
def execLoop (cfg : AutoPilotConfig) (hasInstr : Bool)
    (oracle : Nat → IterOutcome) :
    Nat → Nat → Nat → List ExecutionStep → ExecutionResult
  | 0, _, _, steps =>
    { success := false, steps := steps,
      error := some ("최대 단계(" ++ toString cfg.maxSteps ++ ") 초과") }
  | rem + 1, curStep, retryCount, steps =>
    match (if hasInstr then (oracle (curStep + 1)).instruction else none) with
    | some a =>
      execLoop cfg hasInstr oracle rem (curStep + 1)
        (if executeActionThrows a (oracle (curStep + 1)).instrExecOracle
          then retryCount else 0)
        (steps ++ [mkStep (curStep + 1) a
          (!executeActionThrows a (oracle (curStep + 1)).instrExecOracle)
          (if executeActionThrows a (oracle (curStep + 1)).instrExecOracle
            then some (oracle (curStep + 1)).instrErrMsg else none)])
    | none =>
      if (oracle (curStep + 1)).decideThrows then
        { success := false, steps := steps,
          error := some (oracle (curStep + 1)).decideErrMsg }
      else
        if (oracle (curStep + 1)).action.type == .done then
          { success := true,
            steps := steps ++
              [mkStep (curStep + 1) (oracle (curStep + 1)).action true none],
            error := none }
        else if (oracle (curStep + 1)).action.type == .blocked then
          if cfg.retryOnError && decide (retryCount < cfg.maxRetries) then
            execLoop cfg hasInstr oracle rem (curStep + 1) (retryCount + 1)
              (steps ++ [mkStep (curStep + 1) (oracle (curStep + 1)).action
                false (some (oracle (curStep + 1)).action.reason)])
          else
            { success := false,
              steps := steps ++
                [mkStep (curStep + 1) (oracle (curStep + 1)).action false
                  (some (oracle (curStep + 1)).action.reason)],
              error := some (oracle (curStep + 1)).action.reason }
        else if (oracle (curStep + 1)).action.type == .explore then
          if decide (cfg.maxRetries ≤ retryCount) then
            { success := false,
              steps := steps ++
                [mkStep (curStep + 1) (oracle (curStep + 1)).action true
                  none],
              error := some "추가 조건을 파악할 수 없음" }
          else
            execLoop cfg hasInstr oracle rem (curStep + 1) (retryCount + 1)
              (steps ++
                [mkStep (curStep + 1) (oracle (curStep + 1)).action true
                  none])
        else
          execLoop cfg hasInstr oracle rem (curStep + 1)
            (if executeActionThrows (oracle (curStep + 1)).action
                (oracle (curStep + 1)).execOracle
              then (if cfg.retryOnError &&
                  decide (retryCount < cfg.maxRetries)
                then retryCount + 1 else retryCount)
              else 0)
            (steps ++ [mkStep (curStep + 1) (oracle (curStep + 1)).action
              (!executeActionThrows (oracle (curStep + 1)).action
                (oracle (curStep + 1)).execOracle)
              (if executeActionThrows (oracle (curStep + 1)).action
                  (oracle (curStep + 1)).execOracle
                then some (oracle (curStep + 1)).execErrMsg else none)])

/-- `AutoPilot.execute`: run the loop from step 0 with an empty history. -/
def execute (cfg : AutoPilotConfig) (hasInstr : Bool)
    (oracle : Nat → IterOutcome) : ExecutionResult :=
  execLoop cfg hasInstr oracle cfg.maxSteps 0 0 []

/-- A recorded step witnessing success: a `done` action whose execution
step was recorded successful. -/
def isDoneStep (s : ExecutionStep) : Prop :=
  s.action.type = .done ∧ s.success = true

lemma executeActionThrows_done {a : Action} (h : a.type = .done)
    (b : Bool) : executeActionThrows a b = true := by
  unfold executeActionThrows
  rw [h]

lemma not_isDoneStep_mkStep_instr {i : Nat} {a : Action} {b : Bool}
    {e : Option String} :
    ¬ isDoneStep (mkStep i a (!executeActionThrows a b) e) := by
  rintro ⟨h1, h2⟩
  simp only [mkStep] at h1 h2
  rw [executeActionThrows_done h1 b] at h2
  simp at h2

lemma not_isDoneStep_of_type {i : Nat} {a : Action} {ok : Bool}
    {e : Option String} (h : a.type ≠ .done) :
    ¬ isDoneStep (mkStep i a ok e) := by
  rintro ⟨h1, -⟩
  exact h h1

lemma isDoneStep_append {steps : List ExecutionStep} {st : ExecutionStep}
    (hQ : ∀ s ∈ steps, ¬ isDoneStep s) (hst : ¬ isDoneStep st) :
    ∀ s ∈ steps ++ [st], ¬ isDoneStep s := by
  intro s hs
  rcases List.mem_append.mp hs with h | h
  · exact hQ s h
  · rw [List.mem_singleton] at h
    subst h
    exact hst

lemma no_done_last {steps : List ExecutionStep}
    (hQ : ∀ s ∈ steps, ¬ isDoneStep s) :
    ¬ ∃ s, steps.getLast? = some s ∧ isDoneStep s := by
  rintro ⟨s, hs, hd⟩
  exact hQ s (List.mem_of_mem_getLast? hs) hd

lemma execLoop_steps_length (cfg : AutoPilotConfig) (hasInstr : Bool)
    (oracle : Nat → IterOutcome) :
    ∀ (rem cur rc : Nat) (steps : List ExecutionStep),
      ((execLoop cfg hasInstr oracle rem cur rc steps).steps).length ≤
        steps.length + rem := by
  intro rem
  induction rem with
  | zero => intro cur rc steps; simp [execLoop]
  | succ n ih =>
    intro cur rc steps
    rw [execLoop]
    split
    · exact le_trans (ih _ _ _) (by
        simp only [List.length_append, List.length_cons, List.length_nil]
        omega)
    · split_ifs <;>
        first
        | exact le_trans (ih _ _ _) (by
            simp only [List.length_append, List.length_cons, List.length_nil]
            omega)
        | (simp only [List.length_append, List.length_cons, List.length_nil]
           omega)

lemma execLoop_success_iff (cfg : AutoPilotConfig) (hasInstr : Bool)
    (oracle : Nat → IterOutcome) :
    ∀ (rem cur rc : Nat) (steps : List ExecutionStep),
      (∀ s ∈ steps, ¬ isDoneStep s) →
      ((execLoop cfg hasInstr oracle rem cur rc steps).success = true ↔
        ∃ s, (execLoop cfg hasInstr oracle rem cur rc steps).steps.getLast?
            = some s ∧ isDoneStep s) := by
  intro rem
  induction rem with
  | zero =>
    intro cur rc steps hQ
    simp only [execLoop]
    constructor
    · intro h; simp at h
    · intro h; exact absurd h (no_done_last hQ)
  | succ n ih =>
    intro cur rc steps hQ
    rw [execLoop]
    split
    · -- explicit instruction branch: recorded step is never a successful done
      exact ih _ _ _ (isDoneStep_append hQ not_isDoneStep_mkStep_instr)
    · by_cases hdec : (oracle (cur + 1)).decideThrows = true
      · rw [if_pos hdec]
        constructor
        · intro h; simp at h
        · intro h; exact absurd h (no_done_last hQ)
      · rw [if_neg hdec]
        by_cases hdone : ((oracle (cur + 1)).action.type == .done) = true
        · rw [if_pos hdone]
          constructor
          · intro _
            exact ⟨_, List.getLast?_concat _, beq_iff_eq.mp hdone, rfl⟩
          · intro _
            rfl
        · rw [if_neg hdone]
          have hnd : (oracle (cur + 1)).action.type ≠ .done := by
            intro h
            exact hdone (beq_iff_eq.mpr h)
          by_cases hblocked :
              ((oracle (cur + 1)).action.type == .blocked) = true
          · rw [if_pos hblocked]
            by_cases hretry :
                (cfg.retryOnError && decide (rc < cfg.maxRetries)) = true
            · rw [if_pos hretry]
              exact ih _ _ _
                (isDoneStep_append hQ (not_isDoneStep_of_type hnd))
            · rw [if_neg hretry]
              constructor
              · intro h; simp at h
              · rintro ⟨s, hs, hd⟩
                rw [List.getLast?_concat] at hs
                cases hs
                exact absurd hd (not_isDoneStep_of_type hnd)
          · rw [if_neg hblocked]
            by_cases hexplore :
                ((oracle (cur + 1)).action.type == .explore) = true
            · rw [if_pos hexplore]
              by_cases hbudget : (decide (cfg.maxRetries ≤ rc)) = true
              · rw [if_pos hbudget]
                constructor
                · intro h; simp at h
                · rintro ⟨s, hs, hd⟩
                  rw [List.getLast?_concat] at hs
                  cases hs
                  exact absurd hd (not_isDoneStep_of_type hnd)
              · rw [if_neg hbudget]
                exact ih _ _ _
                  (isDoneStep_append hQ (not_isDoneStep_of_type hnd))
            · rw [if_neg hexplore]
              exact ih _ _ _
                (isDoneStep_append hQ (not_isDoneStep_of_type hnd))

lemma execLoop_error_of_failure (cfg : AutoPilotConfig) (hasInstr : Bool)
    (oracle : Nat → IterOutcome) :
    ∀ (rem cur rc : Nat) (steps : List ExecutionStep),
      (execLoop cfg hasInstr oracle rem cur rc steps).success = false →
      ((execLoop cfg hasInstr oracle rem cur rc steps).error).isSome = true
      := by
  intro rem
  induction rem with
  | zero => intro cur rc steps _; simp [execLoop]
  | succ n ih =>
    intro cur rc steps hfail
    rw [execLoop] at hfail ⊢
    revert hfail
    split
    · exact ih _ _ _
    · by_cases hdec : (oracle (cur + 1)).decideThrows = true
      · rw [if_pos hdec]; intro _; rfl
      · rw [if_neg hdec]
        by_cases hdone : ((oracle (cur + 1)).action.type == .done) = true
        · rw [if_pos hdone]
          intro h
          exact absurd h (by simp)
        · rw [if_neg hdone]
          by_cases hblocked :
              ((oracle (cur + 1)).action.type == .blocked) = true
          · rw [if_pos hblocked]
            by_cases hretry :
                (cfg.retryOnError && decide (rc < cfg.maxRetries)) = true
            · rw [if_pos hretry]; exact ih _ _ _
            · rw [if_neg hretry]; intro _; rfl
          · rw [if_neg hblocked]
            by_cases hexplore :
                ((oracle (cur + 1)).action.type == .explore) = true
            · rw [if_pos hexplore]
              by_cases hbudget : (decide (cfg.maxRetries ≤ rc)) = true
              · rw [if_pos hbudget]; intro _; rfl
              · rw [if_neg hbudget]; exact ih _ _ _
            · rw [if_neg hexplore]; exact ih _ _ _

/-- Claim C8.  The `execute` loop records at most `maxSteps` steps and
always terminates with an `ExecutionResult` (it is a total function of the
oracle); the result's `success` is `true` exactly when the loop reached a
`done` action (recorded as the successful last step), and every failing
result carries an error reason. -/
theorem execute_spec (cfg : AutoPilotConfig) (hasInstr : Bool)
    (oracle : Nat → IterOutcome) :
    ((execute cfg hasInstr oracle).steps.length ≤ cfg.maxSteps)
    ∧ ((execute cfg hasInstr oracle).success = true ↔
        ∃ s, (execute cfg hasInstr oracle).steps.getLast? = some s ∧
          isDoneStep s)
    ∧ ((execute cfg hasInstr oracle).success = false →
        ((execute cfg hasInstr oracle).error).isSome = true) :=
  by
  refine ⟨?_, ?_, ?_⟩
  · simpa using execLoop_steps_length cfg hasInstr oracle cfg.maxSteps 0 0 []
  · exact execLoop_success_iff cfg hasInstr oracle cfg.maxSteps 0 0 []
      (by simp)
  · exact execLoop_error_of_failure cfg hasInstr oracle cfg.maxSteps 0 0 []

/-- Concrete sample: an oracle that always decides `blocked`. -/
def sampleBlockedOracle : Nat → IterOutcome := fun _ =>
  { action := { type := .blocked, reason := "stuck", confidence := 1 } }

/-- Closed witness for `execute_spec`: with retries disabled and a
persistent `blocked` decision, the run fails and carries an error reason. -/
theorem execute_spec_witness :
    ((execute { maxSteps := 3, retryOnError := false } false
      sampleBlockedOracle).error).isSome = true :=
  (execute_spec { maxSteps := 3, retryOnError := false } false
    sampleBlockedOracle).2.2 rfl

end AutoPilot

end AutoQA
